import Mathlib

/-!
Verification of the disk-backed numpy feature store and index-select
operators of the graphbolt excerpt (`cnumpy.h`, `index_select.cc`).

The excerpt contains the class declaration of `OnDiskNpyArray` and the
dispatch wrappers (`IndexSelect`, `DiskIndexSelect`, `DiskFeatureShape`,
`IndexSelectCSC`).  The bodies of `parse_npy_header` and
`index_select_iouring` are declared in `cnumpy.h` but their translation
units are not part of the excerpt; those two operations are modelled
from the specification, as noted on each definition.
-/

namespace Graphbolt

/-- Error taxonomy of the component: `ioError` (file cannot be opened,
header cannot be fully read, a row read is short or fails at the OS
level, carrying the offending row index when one exists), `formatError`
(unrecognized magic or version, malformed metadata, unsupported element
type), `outOfRangeError` (a requested row index is negative or at least
the declared row count). -/
inductive GBError where
  | ioError (msg : String) (row : Option Nat)
  | formatError (msg : String)
  | outOfRangeError (idx : Int)
deriving DecidableEq, Repr

/-- Element type tags mirroring `torch::ScalarType` as far as the claims
need them. -/
inductive ScalarType where
  | u8 | i8 | i16 | i32 | i64 | f16 | f32 | f64 | bool
deriving DecidableEq, Repr

/-- Model of the raw on-disk file that an `OnDiskNpyArray` is opened on:
whether `fopen` succeeds, whether the fixed header region can be fully
read, validity of the magic and version, of the metadata dictionary and
of the element type code (with its byte width when supported), the
declared shape, the declared header length (byte offset of the data
section), the raw data bytes, and the set of rows whose read fails at
the OS level. -/
structure RawFile where
  canOpen : Bool
  headerComplete : Bool
  magicVersionOk : Bool
  metadataOk : Bool
  typeWidth : Option Nat
  shape : List Nat
  headerLen : Nat
  data : List Nat
  osFailRows : List Nat
deriving DecidableEq, Repr

/-- The handle produced by a successful open, with the fields of the
C++ class `OnDiskNpyArray` (`cnumpy.h`): file path, feature shape
tensor, `feat_dim` (elements per row), `word_size` (bytes per element),
`prefix_len` (byte length of the header prefix). -/
structure OnDiskNpyArray where
  filename : String
  feat_shape : List Nat
  feat_dim : Nat
  word_size : Nat
  prefix_len : Nat
deriving DecidableEq, Repr

/-- Modelled from the spec: the body of `OnDiskNpyArray::parse_npy_header`
is not in the excerpt.  Together with the constructor
`OnDiskNpyArray(std::string)` (which is in the excerpt: `fopen` failure
throws before any parse), opening validates in order: file can be
opened and the header fully read (else `ioError`), magic and version
recognized, metadata dictionary well formed, element type supported
(else `formatError`), and then computes `feat_dim` as the product of
the shape dimensions after the leading one.  A failed parse yields no
handle. -/
def openNpy (f : RawFile) (path : String) : Except GBError OnDiskNpyArray :=
  if f.canOpen = false then
    .error (.ioError "npy_load: Unable to open file" none)
  else if f.headerComplete = false then
    .error (.ioError "npy_load: header cannot be fully read" none)
  else if f.magicVersionOk = false then
    .error (.formatError "unrecognized magic signature or version")
  else if f.metadataOk = false then
    .error (.formatError "malformed metadata dictionary")
  else
    match f.typeWidth with
    | none => .error (.formatError "unsupported element type")
    | some w =>
        .ok { filename := path, feat_shape := f.shape,
              feat_dim := (f.shape.drop 1).prod,
              word_size := w, prefix_len := f.headerLen }

/-- Accessor `OnDiskNpyArray::feature_shape` (`cnumpy.h` line 49):
returns the stored shape; it takes no file argument, hence performs no
read. -/
def feature_shape (a : OnDiskNpyArray) : List Nat := a.feat_shape

/-- Declared row count: the leading dimension of the feature shape. -/
def numRows (a : OnDiskNpyArray) : Nat := a.feat_shape.headI

/-- Byte length of one row. -/
def rowBytesLen (a : OnDiskNpyArray) : Nat := a.feat_dim * a.word_size

/-- Absolute byte offset of row `i`. -/
def rowStart (a : OnDiskNpyArray) (i : Nat) : Nat :=
  a.prefix_len + i * rowBytesLen a

/-- Outcome of one asynchronous row read. -/
inductive ReadOutcome where
  | ok (bytes : List Nat)
  | shortRead
  | osError
deriving DecidableEq, Repr

/-- Whether a read outcome is a success. -/
def readOutcomeOk : ReadOutcome → Bool
  | .ok _ => true
  | _ => false

/-- Bytes of a successful read outcome. -/
def outcomeBytes : ReadOutcome → List Nat
  | .ok bs => bs
  | _ => []

/-- Error text for a failed read outcome. -/
def ioErrMsg : ReadOutcome → String
  | .shortRead => "short read on row"
  | .osError => "os level read error on row"
  | .ok _ => ""

/-- Modelled from the spec: one read request of the byte range of row
`i`.  A row in the OS failure set fails at the OS level; a range that
extends past the end of the file completes short; otherwise the read
returns exactly the requested bytes. -/
def readRow (f : RawFile) (a : OnDiskNpyArray) (i : Nat) : ReadOutcome :=
  if i ∈ f.osFailRows then .osError
  else if rowStart a i + rowBytesLen a ≤ f.data.length then
    .ok ((f.data.drop (rowStart a i)).take (rowBytesLen a))
  else .shortRead

/-- Decode a row of raw bytes into `dim` elements of `ws` bytes each
(little endian words); the spec leaves numeric conversion between the
stored and the target element type unspecified, so elements are the
stored words. -/
def decodeRow (ws : Nat) (dim : Nat) (bytes : List Nat) : List Nat :=
  (List.range dim).map (fun j => ((bytes.drop (j * ws)).take ws).foldr
    (fun b acc => b + 256 * acc) 0)

/-- The decoded content of row `j` as read directly from the file. -/
def rowData (f : RawFile) (a : OnDiskNpyArray) (j : Nat) : List Nat :=
  decodeRow a.word_size a.feat_dim ((f.data.drop (rowStart a j)).take (rowBytesLen a))

/-- Predicate on an index: negative or at least the declared row count. -/
def badIdx (a : OnDiskNpyArray) (i : Int) : Bool :=
  decide (i < 0) || decide ((numRows a : Int) ≤ i)

/-- The gathered buffer: the target element type and the decoded rows in
request order. -/
structure GatherResult where
  dtype : ScalarType
  rows : List (List Nat)
deriving DecidableEq, Repr

/-- A gather call's observable behaviour: its result and the log of row
indices for which a read request was submitted to the ring. -/
structure GatherOutput where
  result : Except GBError GatherResult
  reads : List Nat
deriving Repr

/-- First failing read among the requested rows, with its row index. -/
def firstFailure (f : RawFile) (a : OnDiskNpyArray) (js : List Nat) :
    Option (Nat × ReadOutcome) :=
  (js.map (fun j => (j, readRow f a j))).find? (fun p => ! readOutcomeOk p.2)

/-- Modelled from the spec: the body of
`OnDiskNpyArray::index_select_iouring` is not in the excerpt.  The
gather first validates every index against `[0, shape[0])` and fails
with `outOfRangeError` on the first offender, submitting no read; then
it submits one read per requested row, and the first short or failed
read fails the whole call with `ioError` naming that row (no retry, no
partial result); otherwise it assembles the decoded rows in request
order, duplicates included. -/
def index_select_iouring (f : RawFile) (a : OnDiskNpyArray)
    (dtype : ScalarType) (idx : List Int) : GatherOutput :=
  match idx.find? (badIdx a) with
  | some bad => { result := .error (.outOfRangeError bad), reads := [] }
  | none =>
      let js := idx.map Int.toNat
      match firstFailure f a js with
      | some p => { result := .error (.ioError (ioErrMsg p.2) (some p.1)), reads := js }
      | none =>
          let res : GatherResult :=
            { dtype := dtype
              rows := js.map (fun j => decodeRow a.word_size a.feat_dim
                (outcomeBytes (readRow f a j))) }
          { result := .ok res, reads := js }

/-- Modelled from the spec: a gather call's side effects are transient
kernel I/O only — it mutates neither the source file nor the handle, so
a call returns the handle and the file unchanged alongside its output. -/
def gatherCall (f : RawFile) (a : OnDiskNpyArray) (dtype : ScalarType)
    (idx : List Int) : GatherOutput × OnDiskNpyArray × RawFile :=
  (index_select_iouring f a dtype idx, a, f)

/-- Run a sequence of gather calls against one handle, threading the
handle and file state through the calls. -/
def runGathers (f : RawFile) (a : OnDiskNpyArray) :
    List (ScalarType × List Int) → List GatherOutput × OnDiskNpyArray × RawFile
  | [] => ([], a, f)
  | c :: cs =>
      let s := gatherCall f a c.1 c.2
      let r := runGathers s.2.2 s.2.1 cs
      (s.1 :: r.1, r.2)

/-- Minimal tensor model for the dispatch wrappers of `index_select.cc`:
element type, shape, flattened integer payload, and the device facts the
dispatch inspects. -/
structure Tensor where
  dtype : ScalarType
  shape : List Nat
  data : List Int
  onGpu : Bool
  pinned : Bool
deriving DecidableEq, Repr

/-- Conversion `index.to(torch::kLong)`: retags the element type as
64-bit integer; integral payloads keep their values. -/
def toLong (t : Tensor) : Tensor := { t with dtype := .i64 }

/-- Device predicate `utils::is_on_gpu` (its translation unit is outside
the excerpt; the dispatch only consults the device flag). -/
def is_on_gpu (t : Tensor) : Bool := t.onGpu

/-- Device predicate `utils::is_accessible_from_gpu` (outside the
excerpt): resident on the GPU or pinned host memory. -/
def is_accessible_from_gpu (t : Tensor) : Bool := t.onGpu || t.pinned

/-- Elements per row of a tensor. -/
def tensorRowLen (t : Tensor) : Nat := (t.shape.drop 1).prod

/-- Row count of a tensor. -/
def tensorNRows (t : Tensor) : Nat := t.shape.headI

/-- Normalize one torch index along a dimension of size `n` (negative
indices count from the end). -/
def normIdx (n : Nat) (i : Int) : Nat := (if i < 0 then i + n else i).toNat

/-- Semantics of `input.index({index})`: select rows of `input` along
the leading dimension at the positions listed by `index`. -/
def tensorIndex (input index : Tensor) : Tensor :=
  { dtype := input.dtype,
    shape := index.data.length :: input.shape.drop 1,
    data := (index.data.map (fun i =>
      (input.data.drop (normIdx (tensorNRows input) i * tensorRowLen input)).take
        (tensorRowLen input))).flatten,
    onGpu := input.onGpu, pinned := input.pinned }

/-- `IndexSelect` of `index_select.cc` lines 16 to 23: when the index is
on the GPU and the input is pinned it dispatches to the external
`UVAIndexSelectImpl` (here a parameter); otherwise it indexes the input
with the index converted to `torch::kLong`. -/
def IndexSelect (uvaImpl : Tensor → Tensor → Tensor)
    (input index : Tensor) : Tensor :=
  if is_on_gpu index = true ∧ input.pinned = true then uvaImpl input index
  else tensorIndex input (toLong index)

/-- `DiskIndexSelect` of `index_select.cc` lines 25 to 29: open the npy
file at `path` and gather with the index converted to `torch::kLong`. -/
def DiskIndexSelect (f : RawFile) (path : String) (index : Tensor)
    (dtype : ScalarType) : Except GBError GatherOutput :=
  (openNpy f path).map (fun a => index_select_iouring f a dtype (toLong index).data)

/-- `DiskFeatureShape` of `index_select.cc` lines 31 to 34: open the npy
file and return its feature shape. -/
def DiskFeatureShape (f : RawFile) (path : String) : Except GBError (List Nat) :=
  (openNpy f path).map feature_shape

/-- `c10::isIntegralType t includeBool`. -/
def isIntegralType (t : ScalarType) (includeBool : Bool) : Bool :=
  match t with
  | .u8 | .i8 | .i16 | .i32 | .i64 => true
  | .bool => includeBool
  | _ => false

/-- `IndexSelectCSC` of `index_select.cc` lines 36 to 54: check the
indices tensor is one dimensional, dispatch to the external CUDA
implementation when the nodes are on the GPU and both graph tensors are
GPU accessible, otherwise check the indices element type is integral
and extract the induced subgraph (`FusedCSCSamplingGraph::InSubgraph`,
external, here a parameter). -/
def IndexSelectCSC (cudaImpl : Tensor → Tensor → Tensor → Option Int → Tensor × Tensor)
    (inSubgraph : Tensor → Tensor → Tensor → Tensor × Tensor)
    (indptr indices nodes : Tensor) (outputSize : Option Int) :
    Except String (Tensor × Tensor) :=
  if indices.shape.length ≠ 1 then
    .error "IndexSelectCSC only supports 1d tensors"
  else if is_on_gpu nodes = true ∧ is_accessible_from_gpu indptr = true ∧
      is_accessible_from_gpu indices = true then
    .ok (cudaImpl indptr indices nodes outputSize)
  else if isIntegralType indices.dtype false = false then
    .error "IndexSelectCSC is not implemented to slice noninteger types yet."
  else
    .ok (inSubgraph indptr indices nodes)

end Graphbolt
namespace Graphbolt

/-- Concrete sample file for the closed instances: three rows of two
one byte elements after a four byte header. -/
def sampleFile : RawFile :=
  { canOpen := true, headerComplete := true, magicVersionOk := true,
    metadataOk := true, typeWidth := some 1, shape := [3, 2], headerLen := 4,
    data := [9, 9, 9, 9, 10, 11, 20, 21, 30, 31], osFailRows := [] }

/-- The handle obtained by opening the sample file. -/
def sampleArr : OnDiskNpyArray :=
  { filename := "sample.npy", feat_shape := [3, 2], feat_dim := 2,
    word_size := 1, prefix_len := 4 }

/-- The gather result for indices two, zero, two on the sample file. -/
def sampleRes : GatherResult :=
  { dtype := ScalarType.i64, rows := [[30, 31], [10, 11], [30, 31]] }

/-- A truncated copy of the sample file whose second row read is short. -/
def shortFile : RawFile :=
  { sampleFile with data := [9, 9, 9, 9, 10, 11, 20] }

end Graphbolt
namespace Graphbolt

/-- A small CPU resident data tensor: four rows of one element. -/
def cpuDataTensor : Tensor :=
  { dtype := ScalarType.f32, shape := [4], data := [100, 200, 300, 400],
    onGpu := false, pinned := false }

/-- A one dimensional CPU index tensor of 32 bit integers. -/
def cpuIdxTensor : Tensor :=
  { dtype := ScalarType.i32, shape := [2], data := [1, 0],
    onGpu := false, pinned := false }

/-- A one dimensional CPU index tensor of floating point type. -/
def floatIdxTensor : Tensor :=
  { dtype := ScalarType.f32, shape := [2], data := [1, 0],
    onGpu := false, pinned := false }

/-- A two dimensional CPU index tensor. -/
def twoDimTensor : Tensor :=
  { dtype := ScalarType.i32, shape := [1, 2], data := [1, 0],
    onGpu := false, pinned := false }

end Graphbolt
namespace Graphbolt

/-- Length of a decoded row is the feature dimension. -/
theorem decodeRow_length (ws dim : Nat) (bs : List Nat) :
    (decodeRow ws dim bs).length = dim := by
  simp [decodeRow]

/-- A successful read of row `j` returns exactly the file bytes of that
row, so decoding gives `rowData`. -/
theorem readRow_ok_decode (f : RawFile) (a : OnDiskNpyArray) (j : Nat)
    (h : readOutcomeOk (readRow f a j) = true) :
    decodeRow a.word_size a.feat_dim (outcomeBytes (readRow f a j)) = rowData f a j := by
  by_cases h1 : j ∈ f.osFailRows
  · simp [readRow, h1, readOutcomeOk] at h
  · by_cases h2 : rowStart a j + rowBytesLen a ≤ f.data.length
    · simp [readRow, h1, h2, outcomeBytes, rowData]
    · simp [readRow, h1, h2, readOutcomeOk] at h

/-- When no read failed, every requested read succeeded. -/
theorem firstFailure_none_ok (f : RawFile) (a : OnDiskNpyArray) (js : List Nat)
    (h : firstFailure f a js = none) :
    ∀ j ∈ js, readOutcomeOk (readRow f a j) = true := by
  intro j hj
  unfold firstFailure at h
  rw [List.find?_eq_none] at h
  have := h (j, readRow f a j) (List.mem_map_of_mem _ hj)
  simpa using this

/-- On success, the gathered rows are the index list mapped through the
per-row decode. -/
theorem gather_ok_rows (f : RawFile) (a : OnDiskNpyArray) (dt : ScalarType)
    (idx : List Int) (res : GatherResult)
    (h : (index_select_iouring f a dt idx).result = Except.ok res) :
    res.dtype = dt ∧
    res.rows = (idx.map Int.toNat).map (fun j => decodeRow a.word_size a.feat_dim
      (outcomeBytes (readRow f a j))) ∧
    idx.find? (badIdx a) = none ∧
    firstFailure f a (idx.map Int.toNat) = none := by
  unfold index_select_iouring at h
  cases hfind : idx.find? (badIdx a) with
  | some bad => rw [hfind] at h; simp at h
  | none =>
    rw [hfind] at h
    cases hff : firstFailure f a (idx.map Int.toNat) with
    | some p => simp only [hff] at h; simp at h
    | none =>
      simp only [hff] at h
      simp at h
      subst h
      exact ⟨rfl, by simp [List.map_map], rfl, rfl⟩

end Graphbolt
namespace Graphbolt

/-- C1: a successful gather returns rows in exactly the input index
order: output row i is the file data of row `idx[i]` (so duplicate
indices yield equal duplicate output rows, and no sorting occurs). -/
theorem gather_preserves_input_order (f : RawFile) (a : OnDiskNpyArray)
    (dt : ScalarType) (idx : List Int) (res : GatherResult)
    (h : (index_select_iouring f a dt idx).result = Except.ok res) :
    res.rows.length = idx.length ∧
    (∀ i : Nat, res.rows[i]? = (idx[i]?).map (fun v => rowData f a v.toNat)) ∧
    (∀ i j : Nat, idx[i]? = idx[j]? → res.rows[i]? = res.rows[j]?) := by
  obtain ⟨-, hrows, -, hff⟩ := gather_ok_rows f a dt idx res h
  have hpt : ∀ i : Nat, res.rows[i]? = (idx[i]?).map (fun v => rowData f a v.toNat) := by
    intro i
    rw [hrows, List.map_map, List.getElem?_map]
    by_cases hi : i < idx.length
    · have hv : idx[i]? = some (idx.get ⟨i, hi⟩) := List.getElem?_eq_getElem hi
      rw [hv]
      have hmem : idx.get ⟨i, hi⟩ ∈ idx := idx.get_mem i hi
      have hok := firstFailure_none_ok f a (idx.map Int.toNat) hff
        ((idx.get ⟨i, hi⟩).toNat) (List.mem_map_of_mem Int.toNat hmem)
      exact congrArg some (readRow_ok_decode f a _ hok)
    · have hn : idx[i]? = none := List.getElem?_eq_none (le_of_not_lt hi)
      rw [hn]
      rfl
  exact ⟨by simp [hrows], hpt, fun i j hij => by rw [hpt i, hpt j, hij]⟩

theorem gather_preserves_input_order_witness :
    (index_select_iouring sampleFile sampleArr ScalarType.i64 [2, 0, 2]).result =
      Except.ok sampleRes ∧
    sampleRes.rows.length = ([2, 0, 2] : List Int).length ∧
    sampleRes.rows[0]? = sampleRes.rows[2]? :=
  ⟨rfl,
   (gather_preserves_input_order sampleFile sampleArr ScalarType.i64 [2, 0, 2]
     sampleRes rfl).1,
   (gather_preserves_input_order sampleFile sampleArr ScalarType.i64 [2, 0, 2]
     sampleRes rfl).2.2 0 2 rfl⟩

/-- C2: when some requested index is negative or at least the declared
row count, the gather fails with an out of range error carrying an
offending index and submits no read at all. -/
theorem gather_out_of_range_no_io (f : RawFile) (a : OnDiskNpyArray)
    (dt : ScalarType) (idx : List Int)
    (h : ∃ i ∈ idx, badIdx a i = true) :
    ∃ bad ∈ idx, badIdx a bad = true ∧
      index_select_iouring f a dt idx =
        { result := Except.error (GBError.outOfRangeError bad), reads := [] } := by
  have hs : (idx.find? (badIdx a)).isSome := by
    rw [List.find?_isSome]
    simpa using h
  obtain ⟨bad, hbad⟩ := Option.isSome_iff_exists.mp hs
  refine ⟨bad, List.mem_of_find?_eq_some hbad, List.find?_some hbad, ?_⟩
  unfold index_select_iouring
  rw [hbad]

theorem gather_out_of_range_no_io_witness :
    (∃ i ∈ ([3] : List Int), badIdx sampleArr i = true) ∧
    ∃ bad ∈ ([3] : List Int), badIdx sampleArr bad = true ∧
      index_select_iouring sampleFile sampleArr ScalarType.i64 [3] =
        { result := Except.error (GBError.outOfRangeError bad), reads := [] } :=
  ⟨⟨3, by decide, by decide⟩,
   gather_out_of_range_no_io sampleFile sampleArr ScalarType.i64 [3]
     ⟨3, by decide, by decide⟩⟩

/-- C3: once indices validate, the first short or OS failed read fails
the whole gather with an io error naming that row; every requested row
was submitted exactly once (no retry) and no partial result is
returned. -/
theorem gather_read_failure_aborts (f : RawFile) (a : OnDiskNpyArray)
    (dt : ScalarType) (idx : List Int) (p : Nat × ReadOutcome)
    (hv : idx.find? (badIdx a) = none)
    (hf : firstFailure f a (idx.map Int.toNat) = some p) :
    index_select_iouring f a dt idx =
      { result := Except.error (GBError.ioError (ioErrMsg p.2) (some p.1)),
        reads := idx.map Int.toNat } ∧
    ∀ r, (index_select_iouring f a dt idx).result ≠ Except.ok r := by
  have h1 : index_select_iouring f a dt idx =
      { result := Except.error (GBError.ioError (ioErrMsg p.2) (some p.1)),
        reads := idx.map Int.toNat } := by
    unfold index_select_iouring
    rw [hv]
    simp only [hf]
  refine ⟨h1, ?_⟩
  intro r hr
  rw [h1] at hr
  simp at hr

theorem gather_read_failure_aborts_witness :
    ([0, 1] : List Int).find? (badIdx sampleArr) = none ∧
    firstFailure shortFile sampleArr (([0, 1] : List Int).map Int.toNat) =
      some (1, ReadOutcome.shortRead) ∧
    index_select_iouring shortFile sampleArr ScalarType.i64 [0, 1] =
      { result := Except.error (GBError.ioError (ioErrMsg ReadOutcome.shortRead) (some 1)),
        reads := ([0, 1] : List Int).map Int.toNat } :=
  ⟨rfl, rfl,
   (gather_read_failure_aborts shortFile sampleArr ScalarType.i64 [0, 1]
     (1, ReadOutcome.shortRead) rfl rfl).1⟩

/-- C4: a successful gather has one output row per input index and each
row holds exactly `feat_dim` elements of the requested element type. -/
theorem gather_result_dims (f : RawFile) (a : OnDiskNpyArray)
    (dt : ScalarType) (idx : List Int) (res : GatherResult)
    (h : (index_select_iouring f a dt idx).result = Except.ok res) :
    res.rows.length = idx.length ∧ (∀ r ∈ res.rows, r.length = a.feat_dim) ∧
    res.dtype = dt := by
  obtain ⟨hdt, hrows, -, -⟩ := gather_ok_rows f a dt idx res h
  refine ⟨by simp [hrows], ?_, hdt⟩
  intro r hr
  rw [hrows] at hr
  simp only [List.map_map, List.mem_map] at hr
  rcases hr with ⟨j, -, rfl⟩
  exact decodeRow_length _ _ _

theorem gather_result_dims_witness :
    (index_select_iouring sampleFile sampleArr ScalarType.f32 [0, 1]).result =
      Except.ok { dtype := ScalarType.f32, rows := [[10, 11], [20, 21]] } ∧
    ([[10, 11], [20, 21]] : List (List Nat)).length = ([0, 1] : List Int).length :=
  ⟨rfl,
   (gather_result_dims sampleFile sampleArr ScalarType.f32 [0, 1]
     { dtype := ScalarType.f32, rows := [[10, 11], [20, 21]] } rfl).1⟩

end Graphbolt
namespace Graphbolt

/-- C5: when the file cannot be opened or its header cannot be fully
read, opening fails with an io error (never a format error, which is
reserved for magic, metadata and element type problems) and yields no
usable handle. -/
theorem open_failure_is_io_error (f : RawFile) (path : String)
    (h : f.canOpen = false ∨ f.headerComplete = false) :
    (∃ m, openNpy f path = Except.error (GBError.ioError m none)) ∧
    (∀ m, openNpy f path ≠ Except.error (GBError.formatError m)) ∧
    (∀ a, openNpy f path ≠ Except.ok a) := by
  have hio : ∃ m, openNpy f path = Except.error (GBError.ioError m none) := by
    by_cases hc : f.canOpen = false
    · exact ⟨"npy_load: Unable to open file", by simp [openNpy, hc]⟩
    · rcases h with h | h
      · exact absurd h hc
      · exact ⟨"npy_load: header cannot be fully read", by simp [openNpy, hc, h]⟩
  obtain ⟨m, hm⟩ := hio
  refine ⟨⟨m, hm⟩, ?_, ?_⟩
  · intro m2 hne
    rw [hm] at hne
    simp at hne
  · intro a hne
    rw [hm] at hne
    simp at hne

theorem open_failure_is_io_error_witness :
    ({ sampleFile with canOpen := false } : RawFile).canOpen = false ∧
    ∃ m, openNpy { sampleFile with canOpen := false } "sample.npy" =
      Except.error (GBError.ioError m none) :=
  ⟨rfl,
   (open_failure_is_io_error { sampleFile with canOpen := false } "sample.npy"
     (Or.inl rfl)).1⟩

/-- Running a sequence of gather calls leaves the handle and the file as
they were and produces each call's output independently of the rest. -/
theorem runGathers_eq (f : RawFile) (a : OnDiskNpyArray)
    (calls : List (ScalarType × List Int)) :
    runGathers f a calls =
      (calls.map (fun c => index_select_iouring f a c.1 c.2), a, f) := by
  induction calls with
  | nil => rfl
  | cons c cs ih => simp [runGathers, gatherCall, ih]

/-- C6: `feature_shape` only projects the stored shape field (its type
takes no file, hence it performs no read), returns the same sequence on
every call, and is unchanged by any prior gather calls on the handle. -/
theorem feature_shape_pure (f : RawFile) (a : OnDiskNpyArray)
    (calls : List (ScalarType × List Int)) :
    feature_shape (runGathers f a calls).2.1 = feature_shape a ∧
    feature_shape a = a.feat_shape := by
  rw [runGathers_eq]
  exact ⟨rfl, rfl⟩

/-- A successful open copies the declared shape into the handle and
computes `feat_dim` as the product of the trailing dimensions. -/
theorem openNpy_ok_fields (f : RawFile) (path : String) (a : OnDiskNpyArray)
    (h : openNpy f path = Except.ok a) :
    a.feat_shape = f.shape ∧ a.feat_dim = (f.shape.drop 1).prod := by
  by_cases h1 : f.canOpen = false
  · simp [openNpy, h1] at h
  · by_cases h2 : f.headerComplete = false
    · simp [openNpy, h1, h2] at h
    · by_cases h3 : f.magicVersionOk = false
      · simp [openNpy, h1, h2, h3] at h
      · by_cases h4 : f.metadataOk = false
        · simp [openNpy, h1, h2, h3, h4] at h
        · cases h5 : f.typeWidth with
          | none => simp [openNpy, h1, h2, h3, h4, h5] at h
          | some w =>
            simp [openNpy, h1, h2, h3, h4, h5] at h
            subst h
            exact ⟨rfl, by simp⟩

/-- C7: after a successful header parse the row stride `feat_dim` is the
product of all shape dimensions except the leading one; for a one
dimensional array it is one. -/
theorem feat_dim_is_tail_prod (f : RawFile) (path : String)
    (a : OnDiskNpyArray) (h : openNpy f path = Except.ok a) :
    a.feat_dim = (a.feat_shape.drop 1).prod ∧
    a.feat_shape = f.shape ∧
    (a.feat_shape.length = 1 → a.feat_dim = 1) := by
  obtain ⟨hs, hd⟩ := openNpy_ok_fields f path a h
  refine ⟨by rw [hs, hd], hs, ?_⟩
  intro hl
  have hnil : a.feat_shape.drop 1 = [] :=
    List.eq_nil_of_length_eq_zero (by rw [List.length_drop, hl])
  rw [hd, ← hs, hnil]
  rfl

theorem feat_dim_is_tail_prod_witness :
    openNpy sampleFile "sample.npy" = Except.ok sampleArr ∧
    sampleArr.feat_dim = (sampleArr.feat_shape.drop 1).prod :=
  ⟨rfl, (feat_dim_is_tail_prod sampleFile "sample.npy" sampleArr rfl).1⟩

/-- C8: gather keeps no state between calls: every call in a run leaves
the file and the handle untouched, each call's output is exactly what a
standalone call produces on the original state, and a call whose
indices validate submits a fresh read for every requested row. -/
theorem gather_stateless (f : RawFile) (a : OnDiskNpyArray)
    (calls : List (ScalarType × List Int)) :
    (runGathers f a calls).2.2 = f ∧
    (runGathers f a calls).2.1 = a ∧
    (runGathers f a calls).1 =
      calls.map (fun c => index_select_iouring f a c.1 c.2) ∧
    (∀ dt idx, idx.find? (badIdx a) = none →
      (index_select_iouring f a dt idx).reads = idx.map Int.toNat) := by
  refine ⟨by rw [runGathers_eq], by rw [runGathers_eq], by rw [runGathers_eq], ?_⟩
  intro dt idx hv
  unfold index_select_iouring
  rw [hv]
  cases hff : firstFailure f a (idx.map Int.toNat) <;> simp [hff]

theorem gather_stateless_witness :
    (runGathers sampleFile sampleArr
      [(ScalarType.i64, [0]), (ScalarType.i64, [0])]).2.2 = sampleFile ∧
    (runGathers sampleFile sampleArr
      [(ScalarType.i64, [0]), (ScalarType.i64, [0])]).2.1 = sampleArr ∧
    ([0] : List Int).find? (badIdx sampleArr) = none ∧
    (index_select_iouring sampleFile sampleArr ScalarType.i64 [0]).reads =
      ([0] : List Int).map Int.toNat :=
  ⟨(gather_stateless sampleFile sampleArr
      [(ScalarType.i64, [0]), (ScalarType.i64, [0])]).1,
   (gather_stateless sampleFile sampleArr
      [(ScalarType.i64, [0]), (ScalarType.i64, [0])]).2.1,
   rfl,
   (gather_stateless sampleFile sampleArr
      [(ScalarType.i64, [0]), (ScalarType.i64, [0])]).2.2.2
     ScalarType.i64 [0] rfl⟩

end Graphbolt
namespace Graphbolt

/-- C9: both wrappers convert the index tensor to 64-bit integers
before selecting: off the pinned-GPU dispatch path, `IndexSelect` is
the tensor indexing applied to the `kLong` converted index, so indexing
with any integral index tensor equals indexing with its int64
conversion; `DiskIndexSelect` likewise gathers with the converted
index, so pre-converting the index changes nothing. -/
theorem index_select_converts_to_long (uvaImpl : Tensor → Tensor → Tensor)
    (f : RawFile) (path : String) (input index : Tensor) (dt : ScalarType)
    (h : ¬(is_on_gpu index = true ∧ input.pinned = true)) :
    IndexSelect uvaImpl input index = tensorIndex input (toLong index) ∧
    IndexSelect uvaImpl input (toLong index) = IndexSelect uvaImpl input index ∧
    DiskIndexSelect f path (toLong index) dt = DiskIndexSelect f path index dt ∧
    (toLong index).dtype = ScalarType.i64 ∧
    (toLong index).data = index.data := by
  have h2 : ¬(is_on_gpu (toLong index) = true ∧ input.pinned = true) := h
  refine ⟨by simp [IndexSelect, h], ?_, rfl, rfl, rfl⟩
  rw [IndexSelect, IndexSelect, if_neg h, if_neg h2]
  rfl

theorem index_select_converts_to_long_witness :
    (¬(is_on_gpu cpuIdxTensor = true ∧ cpuDataTensor.pinned = true)) ∧
    IndexSelect (fun t _ => t) cpuDataTensor cpuIdxTensor =
      tensorIndex cpuDataTensor (toLong cpuIdxTensor) ∧
    (toLong cpuIdxTensor).dtype = ScalarType.i64 :=
  ⟨by decide,
   (index_select_converts_to_long (fun t _ => t) sampleFile "sample.npy"
     cpuDataTensor cpuIdxTensor ScalarType.i64 (by decide)).1,
   (index_select_converts_to_long (fun t _ => t) sampleFile "sample.npy"
     cpuDataTensor cpuIdxTensor ScalarType.i64 (by decide)).2.2.2.1⟩

/-- C10: `IndexSelectCSC` rejects a non one dimensional indices tensor
outright, rejects a non integral indices element type on the CPU path,
and only inputs passing both checks reach the subgraph extraction; the
error results do not depend on either extraction implementation. -/
theorem index_select_csc_checks
    (cudaImpl : Tensor → Tensor → Tensor → Option Int → Tensor × Tensor)
    (inSubgraph : Tensor → Tensor → Tensor → Tensor × Tensor)
    (indptr indices nodes : Tensor) (outputSize : Option Int) :
    (indices.shape.length ≠ 1 →
      IndexSelectCSC cudaImpl inSubgraph indptr indices nodes outputSize =
        Except.error "IndexSelectCSC only supports 1d tensors") ∧
    (indices.shape.length = 1 →
      ¬(is_on_gpu nodes = true ∧ is_accessible_from_gpu indptr = true ∧
          is_accessible_from_gpu indices = true) →
      isIntegralType indices.dtype false = false →
      IndexSelectCSC cudaImpl inSubgraph indptr indices nodes outputSize =
        Except.error "IndexSelectCSC is not implemented to slice noninteger types yet.") ∧
    (indices.shape.length = 1 →
      ¬(is_on_gpu nodes = true ∧ is_accessible_from_gpu indptr = true ∧
          is_accessible_from_gpu indices = true) →
      isIntegralType indices.dtype false = true →
      IndexSelectCSC cudaImpl inSubgraph indptr indices nodes outputSize =
        Except.ok (inSubgraph indptr indices nodes)) := by
  refine ⟨fun h1 => ?_, fun h1 hg hi => ?_, fun h1 hg hi => ?_⟩
  · simp [IndexSelectCSC, h1]
  · simp [IndexSelectCSC, h1, hg, hi]
  · simp [IndexSelectCSC, h1, hg, hi]

theorem index_select_csc_checks_witness :
    (cpuIdxTensor.shape.length = 1 ∧
      ¬(is_on_gpu cpuIdxTensor = true ∧ is_accessible_from_gpu cpuDataTensor = true ∧
          is_accessible_from_gpu cpuIdxTensor = true) ∧
      isIntegralType cpuIdxTensor.dtype false = true) ∧
    (IndexSelectCSC (fun t _ _ _ => (t, t)) (fun a _ c => (a, c))
      cpuDataTensor cpuIdxTensor cpuIdxTensor none =
        Except.ok (cpuDataTensor, cpuIdxTensor)) ∧
    (IndexSelectCSC (fun t _ _ _ => (t, t)) (fun a _ c => (a, c))
      cpuDataTensor floatIdxTensor cpuIdxTensor none =
        Except.error "IndexSelectCSC is not implemented to slice noninteger types yet.") ∧
    (IndexSelectCSC (fun t _ _ _ => (t, t)) (fun a _ c => (a, c))
      cpuDataTensor twoDimTensor cpuIdxTensor none =
        Except.error "IndexSelectCSC only supports 1d tensors") :=
  ⟨⟨rfl, by decide, rfl⟩,
   (index_select_csc_checks (fun t _ _ _ => (t, t)) (fun a _ c => (a, c))
     cpuDataTensor cpuIdxTensor cpuIdxTensor none).2.2 rfl (by decide) rfl,
   (index_select_csc_checks (fun t _ _ _ => (t, t)) (fun a _ c => (a, c))
     cpuDataTensor floatIdxTensor cpuIdxTensor none).2.1 rfl (by decide) rfl,
   (index_select_csc_checks (fun t _ _ _ => (t, t)) (fun a _ c => (a, c))
     cpuDataTensor twoDimTensor cpuIdxTensor none).1 (by decide)⟩

end Graphbolt
